import Mathlib

/-!
Shallow embedding of the Power Rangers Simulation combat core
(`character.py`, `enemy.py`, `battle.py`, `config.py`), together with
theorems settling the specification claims about it.

Python floats are modelled as rationals (`ℚ`); Python's `int(...)`
truncation is `pyInt`.  Randomness (`random.random()`, `random.choice`)
is modelled by explicit parameters.
-/

namespace PRS

/-- Python `int(q)`: truncation toward zero. -/
def pyInt (q : ℚ) : ℤ := if 0 ≤ q then ⌊q⌋ else ⌈q⌉

/-- A status effect entry, e.g. `{"type": "speed_boost", "duration": 3}`. -/
structure StatusEffect where
  kind : String
  duration : ℤ
deriving DecidableEq

/-- The five player skills of `PowerRanger.skills` (name → learned flag). -/
structure SkillSet where
  powerStrike : Bool
  megaBlast : Bool
  healingLight : Bool
  speedBoost : Bool
  medicProtocol : Bool
deriving DecidableEq

/-- The mutable state of `character.PowerRanger`.
`battle_history` records and `investments` entries are opaque to the
claims and modelled as plain lists. -/
structure PowerRanger where
  name : String
  color : String
  power_type : String
  weapon : String
  level : ℤ
  xp : ℤ
  max_health : ℚ
  current_health : ℚ
  attack : ℚ
  defense : ℚ
  speed : ℚ
  gold : ℚ
  mega_energy : ℤ
  skill_points : ℤ
  ranger_keys : List String
  battle_history : List String
  investments : List (String × ℚ)
  skills : SkillSet
  limb_damage_arms : ℤ
  limb_damage_legs : ℤ
  status_effects : List StatusEffect
deriving DecidableEq

/-- `PowerRanger.__init__` with empty creation choices (no bonus branch):
level 1, 100 health, 20 attack, 10 defense, 15 speed, 100 gold,
3 mega energy, no keys, no skills. -/
def basePlayer : PowerRanger :=
  { name := "", color := "", power_type := "", weapon := ""
    level := 1, xp := 0
    max_health := 100, current_health := 100
    attack := 20, defense := 10, speed := 15
    gold := 100, mega_energy := 3, skill_points := 0
    ranger_keys := [], battle_history := [], investments := []
    skills := ⟨false, false, false, false, false⟩
    limb_damage_arms := 0, limb_damage_legs := 0
    status_effects := [] }

/-- `PowerRanger.take_damage(damage)`: `actual = max(1, damage - defense)`,
`*= 1.2` when `limb_damage["arms"] > 0`, health decreased and clamped at 0;
returns the actual damage. -/
def PowerRanger.take_damage (p : PowerRanger) (damage : ℚ) : ℚ × PowerRanger :=
  let actual0 := max 1 (damage - p.defense)
  let actual := if 0 < p.limb_damage_arms then actual0 * (6/5) else actual0
  (actual, { p with current_health := max 0 (p.current_health - actual) })

/-- `PowerRanger.heal(amount)`: clamp to `max_health`, return the delta. -/
def PowerRanger.heal (p : PowerRanger) (amount : ℚ) : ℚ × PowerRanger :=
  let newHealth := min p.max_health (p.current_health + amount)
  (newHealth - p.current_health, { p with current_health := newHealth })

/-- `skills[skill_name]` lookup: `none` models `skill_name not in self.skills`. -/
def SkillSet.lookup (s : SkillSet) (skill_name : String) : Option Bool :=
  if skill_name = "Power Strike" then some s.powerStrike
  else if skill_name = "Mega Blast" then some s.megaBlast
  else if skill_name = "Healing Light" then some s.healingLight
  else if skill_name = "Speed Boost" then some s.speedBoost
  else if skill_name = "Medic Protocol" then some s.medicProtocol
  else none

/-- `PowerRanger.use_skill(skill_name)`: the success flag and the updated
state (messages and the damage figure embedded in them are display only). -/
def PowerRanger.use_skill (p : PowerRanger) (skill_name : String) :
    Bool × PowerRanger :=
  match p.skills.lookup skill_name with
  | none => (false, p)
  | some false => (false, p)
  | some true =>
    if skill_name = "Power Strike" then
      if 1 ≤ p.mega_energy then (true, { p with mega_energy := p.mega_energy - 1 })
      else (false, p)
    else if skill_name = "Mega Blast" then
      if 2 ≤ p.mega_energy then (true, { p with mega_energy := p.mega_energy - 2 })
      else (false, p)
    else if skill_name = "Healing Light" then
      if 1 ≤ p.mega_energy then
        (true, { p with
                 mega_energy := p.mega_energy - 1
                 current_health :=
                   min p.max_health (p.current_health + p.max_health * (3/10)) })
      else (false, p)
    else if skill_name = "Speed Boost" then
      if 1 ≤ p.mega_energy then
        (true, { p with
                 mega_energy := p.mega_energy - 1
                 status_effects := p.status_effects ++ [⟨"speed_boost", 3⟩] })
      else (false, p)
    else if skill_name = "Medic Protocol" then
      if 2 ≤ p.mega_energy then
        (true, { p with
                 mega_energy := p.mega_energy - 2
                 current_health :=
                   min p.max_health (p.current_health + p.max_health * (1/2))
                 limb_damage_arms := 0
                 limb_damage_legs := 0 })
      else (false, p)
    else (false, p)

/-- `PowerRanger.add_ranger_key(key_name)`: append when new; every 5th key
grants `mega_energy += 1` (no upper clamp in the source). -/
def PowerRanger.add_ranger_key (p : PowerRanger) (key_name : String) :
    Bool × PowerRanger :=
  if p.ranger_keys.contains key_name then (false, p)
  else
    let keys := p.ranger_keys ++ [key_name]
    if keys.length % 5 = 0 then
      (true, { p with ranger_keys := keys, mega_energy := p.mega_energy + 1 })
    else
      (true, { p with ranger_keys := keys })

/-- `PowerRanger.can_use_fusion_power()`. -/
def PowerRanger.can_use_fusion_power (p : PowerRanger) : Bool :=
  decide (3 ≤ p.level) && decide (3 ≤ p.mega_energy) &&
    decide (2 ≤ p.ranger_keys.length)

/-- `PowerRanger.use_fusion_power()`: on success, deduct 3 mega energy and
report `attack * 3.0` damage (the figure printed in the message); on failure
return the state untouched. -/
def PowerRanger.use_fusion_power (p : PowerRanger) :
    Bool × Option ℚ × PowerRanger :=
  if p.can_use_fusion_power then
    (true, some (p.attack * 3), { p with mega_energy := p.mega_energy - 3 })
  else
    (false, none, p)

/-- `BattleSystem._battle_loop` step 8: every 3rd turn,
`mega_energy = min(5, mega_energy + 1)`. -/
def regenerateMegaEnergy (p : PowerRanger) : PowerRanger :=
  { p with mega_energy := min 5 (p.mega_energy + 1) }

/-- Python's substring test `needle in hay` on the character lists. -/
def charsContain (hay needle : List Char) : Bool :=
  needle.isPrefixOf hay ||
    match hay with
    | [] => false
    | _ :: t => charsContain t needle

/-- Python's `needle in hay` for strings. -/
def strContainsStr (hay needle : String) : Bool :=
  charsContain hay.toList needle.toList

/-- One entry of `Enemy.limbs`. -/
structure Limb where
  health : ℚ
  max_health : ℚ
  broken : Bool
deriving DecidableEq

/-- `enemy.EnemyState`. -/
inductive EnemyState where
  | aggressive
  | defensive
  | fleeing
  | stunned
  | enraged
deriving DecidableEq

/-- The mutable state of `enemy.Enemy`.  `temp_defense_boost` models the
presence of the `_temp_defense_boost` attribute tested by
`Enemy.take_damage` via `hasattr`; no statement in the source ever sets
that attribute, so it starts `false` and no embedded operation makes it
`true`. -/
structure Enemy where
  name : String
  enemy_type : String
  max_health : ℚ
  current_health : ℚ
  attack : ℚ
  defense : ℚ
  speed : ℚ
  gold_reward : ℚ
  xp_reward : ℚ
  state : EnemyState
  behavior_pattern : String
  turn_counter : ℤ
  left_arm : Limb
  right_arm : Limb
  left_leg : Limb
  right_leg : Limb
  status_effects : List StatusEffect
  special_abilities : List String
  temp_defense_boost : Bool
deriving DecidableEq

/-- `Config.ENEMY_TYPES`: health, attack, behavior. -/
def enemyTypeStats (t : String) : Option (ℚ × ℚ × String) :=
  if t = "Loogies" then some (30, 8, "aggressive")
  else if t = "Zombats" then some (25, 10, "swarm")
  else if t = "Bruisers" then some (60, 15, "tank")
  else if t = "X-Borgs" then some (45, 12, "tactical")
  else none

/-- `Config.BOSS_ENEMIES`: health, attack. -/
def bossEnemyStats (t : String) : Option (ℚ × ℚ) :=
  if t = "Metal Alice" then some (200, 25)
  else if t = "Black Knight" then some (250, 30)
  else if t = "Emperor Mavro" then some (300, 35)
  else none

/-- `Enemy._add_boss_abilities` keyed on the name. -/
def bossAbilities (name : String) : List String :=
  if name = "Metal Alice" then ["Cyber Blast", "System Repair", "Data Corruption"]
  else if name = "Black Knight" then ["Dark Strike", "Shadow Shield", "Nightmare Wave"]
  else if name = "Emperor Mavro" then ["Imperial Blast", "Royal Guard", "Conquest Beam"]
  else []

/-- `limb["max_health"] = int(limb["max_health"] * m); limb["health"] = ...` -/
def scaleLimb (l : Limb) (m : ℚ) : Limb :=
  let mh : ℚ := (pyInt (l.max_health * m) : ℤ)
  { health := mh, max_health := mh, broken := l.broken }

/-- `Enemy.__init__` base stats, before `_apply_type_stats` runs. -/
def baseEnemyRaw (name enemy_type : String) : Enemy :=
  { name := name, enemy_type := enemy_type
    max_health := 50, current_health := 50
    attack := 15, defense := 5, speed := 10
    gold_reward := 25, xp_reward := 20
    state := EnemyState.aggressive, behavior_pattern := "normal", turn_counter := 0
    left_arm := ⟨20, 20, false⟩, right_arm := ⟨20, 20, false⟩
    left_leg := ⟨15, 15, false⟩, right_leg := ⟨15, 15, false⟩
    status_effects := [], special_abilities := []
    temp_defense_boost := false }

/-- `Enemy._apply_type_stats`. -/
def Enemy.applyTypeStats (e : Enemy) : Enemy :=
  match enemyTypeStats e.enemy_type with
  | some (h, a, b) =>
    let m := h / 50
    { e with
      max_health := h
      current_health := h
      attack := a
      behavior_pattern := b
      left_arm := scaleLimb e.left_arm m
      right_arm := scaleLimb e.right_arm m
      left_leg := scaleLimb e.left_leg m
      right_leg := scaleLimb e.right_leg m }
  | none =>
    match bossEnemyStats e.enemy_type with
    | some (h, a) =>
      { e with
        max_health := h
        current_health := h
        attack := a
        behavior_pattern := "boss"
        gold_reward := 100
        xp_reward := 75
        left_arm := scaleLimb e.left_arm 2
        right_arm := scaleLimb e.right_arm 2
        left_leg := scaleLimb e.left_leg 2
        right_leg := scaleLimb e.right_leg 2
        special_abilities := bossAbilities e.name }
    | none => e

/-- `Enemy.__init__(name, enemy_type)` including the `_apply_type_stats`
call at its end. -/
def Enemy.init (name enemy_type : String) : Enemy :=
  (baseEnemyRaw name enemy_type).applyTypeStats

/-- A generic enemy whose type matches no stat table: base stats stand. -/
def baseEnemy : Enemy := Enemy.init "Grunt" "basic"

/-- `self.limbs[limb_name]`; `none` models `limb_name not in self.limbs`. -/
def Enemy.getLimb (e : Enemy) (limb_name : String) : Option Limb :=
  if limb_name = "left_arm" then some e.left_arm
  else if limb_name = "right_arm" then some e.right_arm
  else if limb_name = "left_leg" then some e.left_leg
  else if limb_name = "right_leg" then some e.right_leg
  else none

/-- Writing back `self.limbs[limb_name]`. -/
def Enemy.setLimb (e : Enemy) (limb_name : String) (l : Limb) : Enemy :=
  if limb_name = "left_arm" then { e with left_arm := l }
  else if limb_name = "right_arm" then { e with right_arm := l }
  else if limb_name = "left_leg" then { e with left_leg := l }
  else if limb_name = "right_leg" then { e with right_leg := l }
  else e

/-- `Enemy.take_limb_damage(limb_name, damage)`: fails on an unknown or
already-broken limb; otherwise subtracts, and at ≤ 0 clamps to 0, sets
`broken`, and applies `attack = int(attack*0.8)` when `"arm" in limb_name`,
`speed = int(speed*0.8)` when `"leg" in limb_name`. -/
def Enemy.take_limb_damage (e : Enemy) (limb_name : String) (damage : ℚ) :
    Bool × Enemy :=
  match e.getLimb limb_name with
  | none => (false, e)
  | some limb =>
    if limb.broken then (false, e)
    else
      let h := limb.health - damage
      if h ≤ 0 then
        let e1 := e.setLimb limb_name ⟨0, limb.max_health, true⟩
        if strContainsStr limb_name "arm" then
          (true, { e1 with attack := (pyInt (e1.attack * (4/5)) : ℤ) })
        else if strContainsStr limb_name "leg" then
          (true, { e1 with speed := (pyInt (e1.speed * (4/5)) : ℤ) })
        else (true, e1)
      else (true, e.setLimb limb_name { limb with health := h })

/-- `Enemy.take_damage(damage)`: defense-reduced damage with a floor of 1,
health clamped at 0; then the (dead) `_temp_defense_boost` reset; then, on a
critical hit (`damage > attack * 1.5`), bonus limb damage `damage // 3` to a
randomly chosen limb, modelled by the `crit_limb` parameter. -/
def Enemy.take_damage (e : Enemy) (damage : ℚ) (crit_limb : String) :
    ℚ × Enemy :=
  let actual := max 1 (damage - e.defense)
  let e1 := { e with current_health := max 0 (e.current_health - actual) }
  let e2 :=
    if e1.temp_defense_boost then
      { e1 with defense := e1.defense - 5, temp_defense_boost := false }
    else e1
  let e3 :=
    if damage > e.attack * (3/2) then
      (e2.take_limb_damage crit_limb ((⌊damage / 3⌋ : ℤ) : ℚ)).2
    else e2
  (actual, e3)

/-- The `defend` branch of `Enemy.execute_action`: `defense += 5` and a 10%
max-health heal.  Nothing here (or anywhere else) records the boost for
later removal. -/
def Enemy.executeDefend (e : Enemy) : Enemy :=
  { e with
    defense := e.defense + 5
    current_health := min e.max_health (e.current_health + e.max_health * (1/10)) }

/-- The `heal` branch of `Enemy.execute_action`: a 15% max-health heal. -/
def Enemy.executeHeal (e : Enemy) : Enemy :=
  { e with
    current_health := min e.max_health (e.current_health + e.max_health * (3/20)) }

/-- `sum(1 for limb in self.limbs.values() if limb["broken"])`. -/
def Enemy.brokenLimbCount (e : Enemy) : ℕ :=
  (if e.left_arm.broken then 1 else 0) + (if e.right_arm.broken then 1 else 0) +
    (if e.left_leg.broken then 1 else 0) + (if e.right_leg.broken then 1 else 0)

/-- `Enemy.update_ai_state`.  `r` models the `random.random()` draw of the
low-health branch; `rc` the `random.choice` between Aggressive (`true`) and
Defensive (`false`) of the high-health branch. -/
def Enemy.update_ai_state (e : Enemy) (r : ℚ) (rc : Bool) : Enemy :=
  let health_percentage := e.current_health / e.max_health
  let s :=
    if health_percentage ≤ 1/5 then
      if r < 3/5 then EnemyState.fleeing else EnemyState.enraged
    else if health_percentage ≤ 2/5 then
      if e.behavior_pattern = "defensive" then EnemyState.defensive
      else EnemyState.aggressive
    else
      if e.behavior_pattern = "aggressive" then EnemyState.aggressive
      else if e.behavior_pattern = "defensive" then EnemyState.defensive
      else if rc then EnemyState.aggressive else EnemyState.defensive
  let s2 := if 2 ≤ e.brokenLimbCount then EnemyState.defensive else s
  { e with state := s2 }

/-- `BattleSystem._apply_environment_effects(player, enemy, environment)`. -/
def applyEnvironmentEffects (p : PowerRanger) (e : Enemy)
    (environment : String) : PowerRanger × Enemy :=
  if environment = "Forest" then ({ p with speed := p.speed + 3 }, e)
  else if environment = "Space Base" then (p, { e with attack := e.attack + 5 })
  else if environment = "Underwater" then
    ({ p with defense := p.defense + 2 }, { e with speed := e.speed - 2 })
  else if environment = "Mountain" then ({ p with attack := p.attack + 3 }, e)
  else if environment = "City" then
    ({ p with mega_energy := p.mega_energy + 1 }, e)
  else (p, e)

/-- The positions counted by `_execute_combo_attack`:
`sum(1 for i, key in enumerate(player_input) if i < len(required_sequence)
and key == required_sequence[i])`. -/
def countMatchingPositions (submitted required : List String) : ℕ :=
  (submitted.zip required).countP (fun kv => kv.1 == kv.2)

/-- The outcome branches of `_execute_combo_attack` (message category and
the damage figure fed to the enemy; the too-slow branch deals none). -/
inductive ComboOutcome where
  | tooSlow
  | perfect (damage : ℚ)
  | good (accuracy damage : ℚ)
  | weak (accuracy damage : ℚ)
  | wrongLength (damage : ℚ)
deriving DecidableEq

/-- The scoring core of `BattleSystem._execute_combo_attack`, with
`Config.COMBO_TIME_LIMIT = 3.0` and `Config.COMBO_DAMAGE_MULTIPLIER = 2.0`
inlined: time over the limit fails outright; an exact match deals
`attack * 2.0`; an equal-length partial match deals `attack * (1+accuracy)`
at accuracy ≥ 0.6 and `attack * 0.5` below; a length mismatch deals
`attack * 0.3`. -/
def executeComboAttack (required submitted : List String)
    (time_taken attack : ℚ) : ComboOutcome :=
  if time_taken > 3 then ComboOutcome.tooSlow
  else if submitted = required then ComboOutcome.perfect (attack * 2)
  else if submitted.length = required.length then
    let accuracy : ℚ :=
      (countMatchingPositions submitted required : ℚ) / (required.length : ℚ)
    if accuracy ≥ 3/5 then ComboOutcome.good accuracy (attack * (1 + accuracy))
    else ComboOutcome.weak accuracy (attack * (1/2))
  else ComboOutcome.wrongLength (attack * (3/10))

/-- `sum(1 for log in self.battle_log if "COMBO" in log)`. -/
def comboLogCount (battle_log : List String) : ℕ :=
  (battle_log.filter (fun s => strContainsStr s "COMBO")).length

/-- The health bonus of `BattleSystem._handle_victory`. -/
def healthBonus (p : PowerRanger) : ℚ :=
  if p.current_health = p.max_health then 3/2
  else if p.current_health ≥ p.max_health * (4/5) then 6/5
  else 1

/-- The combo bonus of `BattleSystem._handle_victory`:
`1 + combo_count * 0.1` when any combo log entry exists, else `1.0`. -/
def comboBonus (battle_log : List String) : ℚ :=
  let c := comboLogCount battle_log
  if 0 < c then 1 + (c : ℚ) * (1/10) else 1

/-- The reward computation of `BattleSystem._handle_victory`:
`final = int(base * health_bonus * combo_bonus)` for gold and xp. -/
def handleVictoryRewards (p : PowerRanger) (e : Enemy)
    (battle_log : List String) : ℤ × ℤ :=
  (pyInt (e.gold_reward * healthBonus p * comboBonus battle_log),
   pyInt (e.xp_reward * healthBonus p * comboBonus battle_log))

/-- The attribute mapping built by `PowerRanger.get_stats_dict`; `Option`
models a key's presence, since `load_from_dict` reads with
`data.get(key, default)`. -/
structure StatsDict where
  name : Option String
  color : Option String
  power_type : Option String
  weapon : Option String
  level : Option ℤ
  xp : Option ℤ
  max_health : Option ℚ
  current_health : Option ℚ
  attack : Option ℚ
  defense : Option ℚ
  speed : Option ℚ
  gold : Option ℚ
  mega_energy : Option ℤ
  skill_points : Option ℤ
  ranger_keys : Option (List String)
  battle_history : Option (List String)
  investments : Option (List (String × ℚ))
  skills : Option SkillSet
  limb_damage : Option (ℤ × ℤ)
  status_effects : Option (List StatusEffect)

/-- `PowerRanger.get_stats_dict`: every attribute is written. -/
def PowerRanger.get_stats_dict (p : PowerRanger) : StatsDict :=
  { name := some p.name
    color := some p.color
    power_type := some p.power_type
    weapon := some p.weapon
    level := some p.level
    xp := some p.xp
    max_health := some p.max_health
    current_health := some p.current_health
    attack := some p.attack
    defense := some p.defense
    speed := some p.speed
    gold := some p.gold
    mega_energy := some p.mega_energy
    skill_points := some p.skill_points
    ranger_keys := some p.ranger_keys
    battle_history := some p.battle_history
    investments := some p.investments
    skills := some p.skills
    limb_damage := some (p.limb_damage_arms, p.limb_damage_legs)
    status_effects := some p.status_effects }

/-- `PowerRanger.load_from_dict(data)`: each attribute read with
`data.get(key, default)`, in source order — in particular the
`current_health` default is the *just-loaded* `max_health`. -/
def PowerRanger.load_from_dict (_p : PowerRanger) (data : StatsDict) :
    PowerRanger :=
  let max_health := data.max_health.getD 100
  let current_health := data.current_health.getD max_health
  let limb_damage := data.limb_damage.getD (0, 0)
  { name := data.name.getD ""
    color := data.color.getD ""
    power_type := data.power_type.getD ""
    weapon := data.weapon.getD ""
    level := data.level.getD 1
    xp := data.xp.getD 0
    max_health := max_health
    current_health := current_health
    attack := data.attack.getD 20
    defense := data.defense.getD 10
    speed := data.speed.getD 15
    gold := data.gold.getD 100
    mega_energy := data.mega_energy.getD 3
    skill_points := data.skill_points.getD 0
    ranger_keys := data.ranger_keys.getD []
    battle_history := data.battle_history.getD []
    investments := data.investments.getD []
    skills := data.skills.getD ⟨false, false, false, false, false⟩
    limb_damage_arms := limb_damage.1
    limb_damage_legs := limb_damage.2
    status_effects := data.status_effects.getD [] }

/-- `Loogies.__init__`. -/
def mkLoogies : Enemy :=
  { Enemy.init "Loogies" "Loogies" with behavior_pattern := "aggressive" }

/-- `Zombats.__init__`. -/
def mkZombats : Enemy :=
  let e := Enemy.init "Zombats" "Zombats"
  { e with behavior_pattern := "swarm", speed := e.speed + 5 }

/-- `Bruisers.__init__`. -/
def mkBruisers : Enemy :=
  let e := Enemy.init "Bruisers" "Bruisers"
  { e with behavior_pattern := "tank", defense := e.defense + 3 }

/-- `XBorgs.__init__`. -/
def mkXBorgs : Enemy :=
  let e := Enemy.init "X-Borgs" "X-Borgs"
  { e with behavior_pattern := "tactical", attack := e.attack + 2 }

/-- `MetalAlice.__init__` (the `phases` attributes play no part in the
claims and are not modelled). -/
def mkMetalAlice : Enemy :=
  { Enemy.init "Metal Alice" "Metal Alice" with behavior_pattern := "boss" }

/-- `BlackKnight.__init__`. -/
def mkBlackKnight : Enemy :=
  { Enemy.init "Black Knight" "Black Knight" with behavior_pattern := "boss" }

/-- `EmperorMavro.__init__` (`royal_guard` not modelled). -/
def mkEmperorMavro : Enemy :=
  { Enemy.init "Emperor Mavro" "Emperor Mavro" with behavior_pattern := "boss" }

/-- The `enemy_classes` mapping of `create_enemy`. -/
def enemyClassFor (enemy_type : String) : Option Enemy :=
  if enemy_type = "Loogies" then some mkLoogies
  else if enemy_type = "Zombats" then some mkZombats
  else if enemy_type = "Bruisers" then some mkBruisers
  else if enemy_type = "X-Borgs" then some mkXBorgs
  else if enemy_type = "Metal Alice" then some mkMetalAlice
  else if enemy_type = "Black Knight" then some mkBlackKnight
  else if enemy_type = "Emperor Mavro" then some mkEmperorMavro
  else none

/-- `difficulty_multipliers.get(mission_difficulty, 1.0)`. -/
def difficultyMultiplier (mission_difficulty : String) : ℚ :=
  if mission_difficulty = "Easy" then 4/5
  else if mission_difficulty = "Medium" then 1
  else if mission_difficulty = "Hard" then 13/10
  else if mission_difficulty = "Extreme" then 8/5
  else 1

/-- The difficulty scaling block of `create_enemy`: each stat
`int(stat * multiplier)`, and `current_health` set to the new
`max_health`. -/
def scaleEnemyByDifficulty (e : Enemy) (m : ℚ) : Enemy :=
  { e with
    max_health := (pyInt (e.max_health * m) : ℤ)
    current_health := (pyInt (e.max_health * m) : ℤ)
    attack := (pyInt (e.attack * m) : ℤ)
    defense := (pyInt (e.defense * m) : ℤ)
    gold_reward := (pyInt (e.gold_reward * m) : ℤ)
    xp_reward := (pyInt (e.xp_reward * m) : ℤ) }

/-- `enemy.create_enemy(enemy_type, mission_difficulty)`; `random_pick`
models the `random.choice(list(Config.ENEMY_TYPES.keys()))` drawn when
`enemy_type == "random"`. -/
def create_enemy (enemy_type mission_difficulty random_pick : String) :
    Enemy :=
  let t := if enemy_type = "random" then random_pick else enemy_type
  let e := (enemyClassFor t).getD mkLoogies
  scaleEnemyByDifficulty e (difficultyMultiplier mission_difficulty)

/-- Player states reachable from a fresh player through the operations the
claim quantifies over: battle-start environment modifiers, skill uses,
every-3rd-turn regeneration, and ranger-key acquisitions. -/
inductive PlayerReachable : PowerRanger → Prop where
  | init : PlayerReachable basePlayer
  | env (e : Enemy) (environment : String) {p : PowerRanger} :
      PlayerReachable p →
      PlayerReachable (applyEnvironmentEffects p e environment).1
  | skill (skill_name : String) {p : PowerRanger} :
      PlayerReachable p → PlayerReachable (p.use_skill skill_name).2
  | regen {p : PowerRanger} :
      PlayerReachable p → PlayerReachable (regenerateMegaEnergy p)
  | key (key_name : String) {p : PowerRanger} :
      PlayerReachable p → PlayerReachable (p.add_ranger_key key_name).2

/-- Two regeneration ticks from the fresh player: mega energy 3 → 4 → 5. -/
def megaFivePlayer : PowerRanger :=
  regenerateMegaEnergy (regenerateMegaEnergy basePlayer)

/-- A generic enemy value with the base `Enemy.__init__` stats. -/
def gruntEnemy : Enemy := baseEnemyRaw "Grunt" "basic"

/-- `gruntEnemy` brought down to 10/50 health: a 20% health fraction. -/
def lowHealthEnemy : Enemy := { gruntEnemy with current_health := 10 }

/-- `gruntEnemy` after both arms are broken by `take_limb_damage` and a
45-damage hit: 10/50 health (exactly 20%) with two broken limbs. -/
def cornerEnemy : Enemy :=
  ((((gruntEnemy.take_limb_damage "left_arm" 20).2.take_limb_damage
      "right_arm" 20).2).take_damage 45 "left_arm").2

/-- `gruntEnemy` after its left arm breaks: attack `int(15*0.8) = 12`. -/
def cornerStep1 : Enemy := { gruntEnemy with left_arm := ⟨0, 20, true⟩, attack := 12 }

/-- `cornerStep1` after its right arm also breaks: attack `int(12*0.8) = 9`. -/
def cornerStep2 : Enemy := { gruntEnemy with left_arm := ⟨0, 20, true⟩, right_arm := ⟨0, 20, true⟩, attack := 9 }

/-- `cornerStep2` after the 45-damage hit: 40 through defense 5, health 10. -/
def cornerLiteral : Enemy := { gruntEnemy with left_arm := ⟨0, 20, true⟩, right_arm := ⟨0, 20, true⟩, attack := 9, current_health := 10 }

end PRS

/-- C2: `take_damage(raw_damage)` computes `actual = max(1, raw - defense)`,
multiplies by 1.2 exactly when `limb_damage["arms"] > 0`, subtracts it from
`current_health` clamped to ≥ 0, and the returned value is always ≥ 1,
however large the defense is. -/
theorem C2_take_damage_min_one (p : PRS.PowerRanger) (damage : ℚ) :
    (p.take_damage damage).1 =
      (if 0 < p.limb_damage_arms then max 1 (damage - p.defense) * (6/5)
       else max 1 (damage - p.defense)) ∧
    (p.take_damage damage).2 =
      { p with current_health := max 0 (p.current_health - (p.take_damage damage).1) } ∧
    1 ≤ (p.take_damage damage).1 := by
  refine ⟨rfl, rfl, ?_⟩
  unfold PRS.PowerRanger.take_damage
  dsimp only
  split
  · have h1 : (1 : ℚ) ≤ max 1 (damage - p.defense) := le_max_left _ _
    nlinarith
  · exact le_max_left _ _

/-- C3: fusion power is all-or-nothing.  If any of the three preconditions
(level ≥ 3, mega_energy ≥ 3, at least 2 ranger keys) fails,
`use_fusion_power` fails and the whole player state is unchanged; if all
three hold it succeeds, deducts exactly 3 mega energy, leaves every other
field unchanged, and reports damage `attack * 3.0`. -/
theorem C3_fusion_all_or_nothing (p : PRS.PowerRanger) :
    (¬(3 ≤ p.level ∧ 3 ≤ p.mega_energy ∧ 2 ≤ p.ranger_keys.length) →
       p.use_fusion_power = (false, none, p)) ∧
    ((3 ≤ p.level ∧ 3 ≤ p.mega_energy ∧ 2 ≤ p.ranger_keys.length) →
       p.use_fusion_power =
         (true, some (p.attack * 3),
          { p with mega_energy := p.mega_energy - 3 })) := by
  have hc : (p.can_use_fusion_power = true) ↔
      (3 ≤ p.level ∧ 3 ≤ p.mega_energy ∧ 2 ≤ p.ranger_keys.length) := by
    simp [PRS.PowerRanger.can_use_fusion_power, and_assoc]
  refine ⟨fun h => ?_, fun h => ?_⟩
  · have hcan : ¬ (p.can_use_fusion_power = true) := fun hcan => h (hc.mp hcan)
    simp [PRS.PowerRanger.use_fusion_power, hcan]
  · have hcan : p.can_use_fusion_power = true := hc.mpr h
    simp [PRS.PowerRanger.use_fusion_power, hcan]

/-- C1 counterexample: `megaFivePlayer` is reachable (two regeneration
ticks from the fresh player) and sits inside the claimed [0,5] bounds, yet
the City battle-start modifier pushes its `mega_energy` to 6 — the claimed
upper bound 5 is violated by `_apply_environment_effects`. -/
theorem C1_counterexample_city_overflows :
    PRS.PlayerReachable PRS.megaFivePlayer ∧
    0 ≤ PRS.megaFivePlayer.mega_energy ∧
    PRS.megaFivePlayer.mega_energy ≤ 5 ∧
    (PRS.applyEnvironmentEffects PRS.megaFivePlayer PRS.gruntEnemy
        "City").1.mega_energy = 6 ∧
    ¬ (PRS.applyEnvironmentEffects PRS.megaFivePlayer PRS.gruntEnemy
        "City").1.mega_energy ≤ 5 :=
  ⟨.regen (.regen .init), by decide, by decide, by decide, by decide⟩

/-- C1 amended: every operation of the claim keeps `mega_energy ≥ 0`, and
skill use and the every-3rd-turn regeneration also keep `mega_energy ≤ 5`
(regeneration clamps at 5); but the City environment modifier and the
every-5th ranger-key bonus add 1 with no upper clamp, so 5 can be
exceeded. -/
theorem C1_amended_mega_energy_bounds (p : PRS.PowerRanger)
    (h0 : 0 ≤ p.mega_energy) (h5 : p.mega_energy ≤ 5) :
    (∀ e environment,
       0 ≤ (PRS.applyEnvironmentEffects p e environment).1.mega_energy) ∧
    (∀ skill_name, 0 ≤ (p.use_skill skill_name).2.mega_energy ∧
       (p.use_skill skill_name).2.mega_energy ≤ 5) ∧
    (0 ≤ (PRS.regenerateMegaEnergy p).mega_energy ∧
       (PRS.regenerateMegaEnergy p).mega_energy ≤ 5) ∧
    (∀ key_name, 0 ≤ (p.add_ranger_key key_name).2.mega_energy) := by
  refine ⟨?_, ?_, ?_, ?_⟩
  · intro e environment
    unfold PRS.applyEnvironmentEffects
    split_ifs <;> dsimp <;> omega
  · intro skill_name
    unfold PRS.PowerRanger.use_skill
    cases hl : p.skills.lookup skill_name with
    | none => dsimp; omega
    | some b =>
      cases b with
      | false => dsimp; omega
      | true => split_ifs <;> dsimp <;> omega
  · unfold PRS.regenerateMegaEnergy
    dsimp
    omega
  · intro key_name
    unfold PRS.PowerRanger.add_ranger_key
    dsimp only
    split_ifs <;> dsimp <;> omega

/-- Witness for the amended C1 bounds at the fresh player. -/
theorem C1_amended_mega_energy_bounds_witness :
    0 ≤ (PRS.regenerateMegaEnergy PRS.basePlayer).mega_energy ∧
    (PRS.regenerateMegaEnergy PRS.basePlayer).mega_energy ≤ 5 :=
  (C1_amended_mega_energy_bounds PRS.basePlayer (by decide) (by decide)).2.2.1

/-- `setLimb` never touches the attack stat. -/
theorem PRS.Enemy.setLimb_attack (e : PRS.Enemy) (limb_name : String)
    (l : PRS.Limb) : (e.setLimb limb_name l).attack = e.attack := by
  unfold PRS.Enemy.setLimb
  split_ifs <;> rfl

/-- `setLimb` never touches the speed stat. -/
theorem PRS.Enemy.setLimb_speed (e : PRS.Enemy) (limb_name : String)
    (l : PRS.Limb) : (e.setLimb limb_name l).speed = e.speed := by
  unfold PRS.Enemy.setLimb
  split_ifs <;> rfl

/-- C4: a limb can only break once.  `take_limb_damage` on an
already-broken limb fails and changes nothing; on a non-broken limb it
subtracts the amount, and when the limb's health drops to ≤ 0 it clamps it
to 0, sets `broken`, and applies the one-time stat penalty —
`attack = int(attack * 0.8)` for an arm, `speed = int(speed * 0.8)` for a
leg. -/
theorem C4_limb_breaks_once (e : PRS.Enemy) (limb_name : String)
    (damage : ℚ) (limb : PRS.Limb)
    (hl : e.getLimb limb_name = some limb) :
    (limb.broken = true → e.take_limb_damage limb_name damage = (false, e)) ∧
    (limb.broken = false →
      (0 < limb.health - damage →
        e.take_limb_damage limb_name damage =
          (true, e.setLimb limb_name
            { limb with health := limb.health - damage })) ∧
      (limb.health - damage ≤ 0 →
        e.take_limb_damage limb_name damage =
          (true,
            if PRS.strContainsStr limb_name "arm" then
              { e.setLimb limb_name ⟨0, limb.max_health, true⟩ with
                attack := (PRS.pyInt (e.attack * (4/5)) : ℤ) }
            else if PRS.strContainsStr limb_name "leg" then
              { e.setLimb limb_name ⟨0, limb.max_health, true⟩ with
                speed := (PRS.pyInt (e.speed * (4/5)) : ℤ) }
            else e.setLimb limb_name ⟨0, limb.max_health, true⟩))) := by
  unfold PRS.Enemy.take_limb_damage
  rw [hl]
  dsimp only
  constructor
  · intro hb
    rw [if_pos hb]
  · intro hb
    rw [if_neg (by simp [hb])]
    constructor
    · intro hpos
      rw [if_neg (not_le.mpr hpos)]
    · intro hneg
      rw [if_pos hneg]
      simp only [PRS.Enemy.setLimb_attack, PRS.Enemy.setLimb_speed]
      split_ifs <;> rfl

/-- Witness for C4 at a concrete enemy: 5 limb damage to a fresh left arm
(20 health) succeeds without breaking it. -/
theorem C4_limb_breaks_once_witness :
    PRS.gruntEnemy.take_limb_damage "left_arm" 5 =
      (true, PRS.gruntEnemy.setLimb "left_arm"
        { PRS.gruntEnemy.left_arm with
          health := PRS.gruntEnemy.left_arm.health - 5 }) :=
  ((C4_limb_breaks_once PRS.gruntEnemy "left_arm" 5 PRS.gruntEnemy.left_arm
      rfl).2 rfl).1 (by norm_num [PRS.gruntEnemy, PRS.baseEnemyRaw])


/-- Evaluating `cornerEnemy`: both arms broken (attack 15 → 12 → 9) and a
45-damage hit (40 after defense 5), leaving 10/50 health — exactly 20%. -/
theorem cornerEnemy_eval : PRS.cornerEnemy = PRS.cornerLiteral := by
  have h1 : PRS.gruntEnemy.take_limb_damage "left_arm" 20 =
      (true, PRS.cornerStep1) := by
    simp [PRS.gruntEnemy, PRS.baseEnemyRaw, PRS.cornerStep1,
      PRS.Enemy.take_limb_damage, PRS.Enemy.getLimb, PRS.Enemy.setLimb,
      PRS.strContainsStr, PRS.charsContain, PRS.pyInt]
    norm_num
  have h2 : PRS.cornerStep1.take_limb_damage "right_arm" 20 =
      (true, PRS.cornerStep2) := by
    simp [PRS.gruntEnemy, PRS.baseEnemyRaw, PRS.cornerStep1,
      PRS.cornerStep2, PRS.Enemy.take_limb_damage, PRS.Enemy.getLimb,
      PRS.Enemy.setLimb, PRS.strContainsStr, PRS.charsContain, PRS.pyInt]
    norm_num
  have h3 : PRS.cornerStep2.take_damage 45 "left_arm" =
      (40, PRS.cornerLiteral) := by
    simp [PRS.gruntEnemy, PRS.baseEnemyRaw, PRS.cornerStep2,
      PRS.cornerLiteral, PRS.Enemy.take_damage, PRS.Enemy.take_limb_damage,
      PRS.Enemy.getLimb, PRS.Enemy.setLimb, PRS.strContainsStr,
      PRS.charsContain, PRS.pyInt]
    norm_num
  show ((((PRS.gruntEnemy.take_limb_damage "left_arm" 20).2.take_limb_damage
      "right_arm" 20).2).take_damage 45 "left_arm").2 = _
  rw [h1]
  dsimp only
  rw [h2]
  dsimp only
  rw [h3]

/-- C6 counterexample: `cornerEnemy` has health fraction exactly 20%
(10/50), yet `update_ai_state` leaves it Defensive — not Fleeing or
Enraged — because its two broken limbs trigger the final override.  Here
`r = 0`, which without the override would have given Fleeing. -/
theorem C6_counterexample_broken_limb_override :
    0 < PRS.cornerEnemy.max_health ∧
    PRS.cornerEnemy.current_health / PRS.cornerEnemy.max_health ≤ 1/5 ∧
    (PRS.cornerEnemy.update_ai_state 0 true).state =
      PRS.EnemyState.defensive ∧
    ¬ ((PRS.cornerEnemy.update_ai_state 0 true).state =
        PRS.EnemyState.fleeing ∨
       (PRS.cornerEnemy.update_ai_state 0 true).state =
        PRS.EnemyState.enraged) := by
  rw [cornerEnemy_eval]
  refine ⟨?_, ?_, ?_, ?_⟩
  · norm_num [PRS.cornerLiteral, PRS.gruntEnemy, PRS.baseEnemyRaw]
  · norm_num [PRS.cornerLiteral, PRS.gruntEnemy, PRS.baseEnemyRaw]
  · simp only [PRS.cornerLiteral, PRS.gruntEnemy, PRS.baseEnemyRaw,
      PRS.Enemy.update_ai_state, PRS.Enemy.brokenLimbCount]
    norm_num
  · simp only [PRS.cornerLiteral, PRS.gruntEnemy, PRS.baseEnemyRaw,
      PRS.Enemy.update_ai_state, PRS.Enemy.brokenLimbCount]
    norm_num
    exact ⟨by decide, by decide⟩

/-- C6 amended: for an enemy with fewer than 2 broken limbs and health
fraction ≤ 20%, `update_ai_state` yields Fleeing when the random draw is
below 0.6 and Enraged otherwise, and no other state is possible. -/
theorem C6_amended_low_health_last_stand (e : PRS.Enemy) (r : ℚ) (rc : Bool)
    (_hmax : 0 < e.max_health)
    (hfrac : e.current_health / e.max_health ≤ 1/5)
    (hlimb : e.brokenLimbCount < 2) :
    (r < 3/5 → (e.update_ai_state r rc).state = PRS.EnemyState.fleeing) ∧
    (3/5 ≤ r → (e.update_ai_state r rc).state = PRS.EnemyState.enraged) ∧
    ((e.update_ai_state r rc).state = PRS.EnemyState.fleeing ∨
     (e.update_ai_state r rc).state = PRS.EnemyState.enraged) := by
  unfold PRS.Enemy.update_ai_state
  dsimp only
  rw [if_neg (by omega), if_pos hfrac]
  refine ⟨fun hr => by rw [if_pos hr], fun hr => by rw [if_neg (not_lt.mpr hr)], ?_⟩
  by_cases hr : r < 3/5
  · exact Or.inl (by rw [if_pos hr])
  · exact Or.inr (by rw [if_neg hr])

/-- Witness for the amended C6: the low-health grunt (10/50 health, no
broken limbs) with a random draw of 0 flees. -/
theorem C6_amended_low_health_last_stand_witness :
    (PRS.lowHealthEnemy.update_ai_state 0 true).state =
      PRS.EnemyState.fleeing :=
  (C6_amended_low_health_last_stand PRS.lowHealthEnemy 0 true
      (by norm_num [PRS.lowHealthEnemy, PRS.gruntEnemy, PRS.baseEnemyRaw])
      (by norm_num [PRS.lowHealthEnemy, PRS.gruntEnemy, PRS.baseEnemyRaw])
      (by decide)).1 (by norm_num)

/-- C7: the `defend` action's +5 defense is never removed.  After the grunt
defends and then takes a hit, its defense is still base + 5 (the reset
branch in `take_damage` is dead: nothing sets `_temp_defense_boost`), and a
second defend stacks to base + 10 — the boost accumulates permanently. -/
theorem C7_defend_boost_persists :
    (PRS.gruntEnemy.executeDefend.take_damage 12 "left_arm").2.defense =
      PRS.gruntEnemy.defense + 5 ∧
    ((PRS.gruntEnemy.executeDefend.take_damage 12
        "left_arm").2.executeDefend.take_damage 12 "left_arm").2.defense =
      PRS.gruntEnemy.defense + 10 := by
  constructor
  · simp [PRS.gruntEnemy, PRS.baseEnemyRaw, PRS.Enemy.executeDefend,
      PRS.Enemy.take_damage, PRS.Enemy.take_limb_damage, PRS.Enemy.getLimb,
      PRS.Enemy.setLimb, PRS.strContainsStr, PRS.charsContain, PRS.pyInt]
    norm_num
  · simp [PRS.gruntEnemy, PRS.baseEnemyRaw, PRS.Enemy.executeDefend,
      PRS.Enemy.take_damage, PRS.Enemy.take_limb_damage, PRS.Enemy.getLimb,
      PRS.Enemy.setLimb, PRS.strContainsStr, PRS.charsContain, PRS.pyInt]
    norm_num

/-- C5: the combo score is a pure function of
(required, submitted, elapsed) with the claimed branch priority: over the
3.0s limit fails with no damage; an exact match deals `attack * 2.0`; an
equal-length partial match deals `attack * (1 + accuracy)` at
accuracy ≥ 0.6 and `attack * 0.5` below; a length mismatch deals
`attack * 0.3`. -/
theorem C5_combo_scoring (required submitted : List String)
    (time_taken attack : ℚ) :
    (time_taken > 3 →
       PRS.executeComboAttack required submitted time_taken attack =
         PRS.ComboOutcome.tooSlow) ∧
    (time_taken ≤ 3 → submitted = required →
       PRS.executeComboAttack required submitted time_taken attack =
         PRS.ComboOutcome.perfect (attack * 2)) ∧
    (time_taken ≤ 3 → submitted ≠ required →
     submitted.length = required.length →
       (3/5 ≤ (PRS.countMatchingPositions submitted required : ℚ) /
           (required.length : ℚ) →
          PRS.executeComboAttack required submitted time_taken attack =
            PRS.ComboOutcome.good
              ((PRS.countMatchingPositions submitted required : ℚ) /
                (required.length : ℚ))
              (attack * (1 + (PRS.countMatchingPositions submitted required : ℚ) /
                (required.length : ℚ)))) ∧
       ((PRS.countMatchingPositions submitted required : ℚ) /
           (required.length : ℚ) < 3/5 →
          PRS.executeComboAttack required submitted time_taken attack =
            PRS.ComboOutcome.weak
              ((PRS.countMatchingPositions submitted required : ℚ) /
                (required.length : ℚ))
              (attack * (1/2)))) ∧
    (time_taken ≤ 3 → submitted.length ≠ required.length →
       PRS.executeComboAttack required submitted time_taken attack =
         PRS.ComboOutcome.wrongLength (attack * (3/10))) := by
  unfold PRS.executeComboAttack
  refine ⟨fun ht => ?_, fun ht hsub => ?_,
    fun ht hsub hlen => ⟨fun hacc => ?_, fun hacc => ?_⟩, fun ht hlen => ?_⟩
  · rw [if_pos ht]
  · rw [if_neg (not_lt.mpr ht), if_pos hsub]
  · rw [if_neg (not_lt.mpr ht), if_neg hsub, if_pos hlen]
    dsimp only
    rw [if_pos hacc]
  · rw [if_neg (not_lt.mpr ht), if_neg hsub, if_pos hlen]
    dsimp only
    rw [if_neg (not_le.mpr hacc)]
  · have hne : submitted ≠ required := fun h => hlen (by rw [h])
    rw [if_neg (not_lt.mpr ht), if_neg hne, if_neg hlen]

/-- C8: the victory health bonus is exactly 1.5 at full health, 1.2 from
80% up to (but excluding) full, and 1.0 below 80%; the final gold and xp
are the enemy's base rewards times the health bonus times the combo bonus
`1 + 0.1 × (number of "COMBO" battle-log entries)`, uncapped, truncated to
int as the source does. -/
theorem C8_victory_reward_scaling (p : PRS.PowerRanger) (e : PRS.Enemy)
    (battle_log : List String) (hpos : 0 < p.max_health) :
    (p.current_health = p.max_health → PRS.healthBonus p = 3/2) ∧
    (p.current_health < p.max_health →
       p.max_health * (4/5) ≤ p.current_health → PRS.healthBonus p = 6/5) ∧
    (p.current_health < p.max_health * (4/5) → PRS.healthBonus p = 1) ∧
    PRS.comboBonus battle_log =
      1 + (PRS.comboLogCount battle_log : ℚ) * (1/10) ∧
    PRS.handleVictoryRewards p e battle_log =
      (PRS.pyInt (e.gold_reward * PRS.healthBonus p *
         (1 + (PRS.comboLogCount battle_log : ℚ) * (1/10))),
       PRS.pyInt (e.xp_reward * PRS.healthBonus p *
         (1 + (PRS.comboLogCount battle_log : ℚ) * (1/10)))) := by
  have hcombo : PRS.comboBonus battle_log =
      1 + (PRS.comboLogCount battle_log : ℚ) * (1/10) := by
    unfold PRS.comboBonus
    by_cases hc : 0 < PRS.comboLogCount battle_log
    · rw [if_pos hc]
    · rw [if_neg hc]
      have : PRS.comboLogCount battle_log = 0 := by omega
      rw [this]
      norm_num
  refine ⟨fun hfull => ?_, fun hlt hge => ?_, fun hlow => ?_, hcombo, ?_⟩
  · unfold PRS.healthBonus
    rw [if_pos hfull]
  · unfold PRS.healthBonus
    rw [if_neg (ne_of_lt hlt), if_pos hge]
  · unfold PRS.healthBonus
    have hne : p.current_health ≠ p.max_health := by nlinarith
    rw [if_neg hne, if_neg (not_le.mpr hlow)]
  · unfold PRS.handleVictoryRewards
    rw [hcombo]

/-- Witness for C8 at the fresh player (full health): the bonus is 1.5. -/
theorem C8_victory_reward_scaling_witness :
    PRS.healthBonus PRS.basePlayer = 3/2 :=
  (C8_victory_reward_scaling PRS.basePlayer PRS.gruntEnemy []
      (by decide)).1 rfl

/-- C9: serialization round-trip — loading the attribute mapping written
by `get_stats_dict` reproduces the original player state entirely
(stats, skills, limb damage, status effects, and all other fields),
whatever state the loading entity started in. -/
theorem C9_stats_dict_roundtrip (p q : PRS.PowerRanger) :
    q.load_from_dict p.get_stats_dict = p := rfl

/-- C10: an archetype string that is neither "random" nor one of the seven
known names silently falls back to a Loogies enemy, scaled by the
requested difficulty multiplier — which defaults to 1.0 for an unknown
difficulty tag. -/
theorem C10_unknown_archetype_loogies_fallback
    (enemy_type mission_difficulty random_pick : String)
    (h0 : enemy_type ≠ "random")
    (h1 : enemy_type ≠ "Loogies") (h2 : enemy_type ≠ "Zombats")
    (h3 : enemy_type ≠ "Bruisers") (h4 : enemy_type ≠ "X-Borgs")
    (h5 : enemy_type ≠ "Metal Alice") (h6 : enemy_type ≠ "Black Knight")
    (h7 : enemy_type ≠ "Emperor Mavro") :
    PRS.create_enemy enemy_type mission_difficulty random_pick =
      PRS.scaleEnemyByDifficulty PRS.mkLoogies
        (PRS.difficultyMultiplier mission_difficulty) ∧
    (mission_difficulty ≠ "Easy" → mission_difficulty ≠ "Medium" →
     mission_difficulty ≠ "Hard" → mission_difficulty ≠ "Extreme" →
       PRS.difficultyMultiplier mission_difficulty = 1) := by
  constructor
  · unfold PRS.create_enemy
    unfold PRS.enemyClassFor
    dsimp only
    rw [if_neg h0, if_neg h1, if_neg h2, if_neg h3, if_neg h4, if_neg h5,
      if_neg h6, if_neg h7]
    rfl
  · intro d1 d2 d3 d4
    unfold PRS.difficultyMultiplier
    rw [if_neg d1, if_neg d2, if_neg d3, if_neg d4]

/-- Witness for C10: archetype "Putty" at difficulty "Nightmare" is a
Loogies scaled by the default multiplier 1. -/
theorem C10_unknown_archetype_loogies_fallback_witness :
    PRS.create_enemy "Putty" "Nightmare" "Loogies" =
      PRS.scaleEnemyByDifficulty PRS.mkLoogies
        (PRS.difficultyMultiplier "Nightmare") ∧
    PRS.difficultyMultiplier "Nightmare" = 1 :=
  ⟨(C10_unknown_archetype_loogies_fallback "Putty" "Nightmare" "Loogies"
      (by decide) (by decide) (by decide) (by decide) (by decide)
      (by decide) (by decide) (by decide)).1,
   (C10_unknown_archetype_loogies_fallback "Putty" "Nightmare" "Loogies"
      (by decide) (by decide) (by decide) (by decide) (by decide)
      (by decide) (by decide) (by decide)).2
      (by decide) (by decide) (by decide) (by decide)⟩
